import Mathlib

/-!
Verification of the tradovate trading agent core.

Shallow embedding of the decision/risk, order-management, indicator and
sentiment-aggregation components of the repository, together with proofs
settling the specification claims about them.

Conventions:
* Python `float` is modelled by `ℚ` where only field/order operations occur,
  and by `ℝ` where `math.exp` is involved (the sentiment aggregator).
* Python `Optional[x]` is `Option`; Python truthiness of a float option
  (`if volatility:`) is `o.getD 0 ≠ 0`.
* Dates are abstracted to `ℕ` (only equality of dates is ever used).
* Mutation of `self` becomes explicit state passing: each method takes the
  receiver record and returns the updated record alongside its result.
-/

namespace Tradovate

/-! ## RiskCalculator (src/decision/risk_calculator.py) -/

/-- Reason component of the `(bool, str)` pair returned by
`RiskCalculator._check_trading_allowed` / `OrderManager.can_trade`;
the four distinct return points of the source are modelled as tags
(the source formats strings with the current amounts). -/
inductive Reason where
  | ok
  | killSwitch
  | dailyLoss
  | maxTrades
  deriving DecidableEq, Repr

/-- State of a `RiskCalculator` instance: configuration attributes set in
`__init__` together with the daily-tracking fields. -/
structure RiskCalculator where
  max_daily_loss : ℚ := 500
  max_trades_per_day : ℕ := 10
  max_position_size : ℕ := 5
  risk_per_trade_pct : ℚ := 1
  account_size : ℚ := 10000
  current_date : Option ℕ := none
  daily_pnl : ℚ := 0
  daily_trades : ℕ := 0
  is_killed : Bool := false
  deriving DecidableEq, Repr

namespace RiskCalculator

/-- `RiskCalculator.record_trade(pnl)`: increment the trade count, add the
pnl, and latch the kill switch when the new daily pnl breaches the limit. -/
def record_trade (s : RiskCalculator) (pnl : ℚ) : RiskCalculator :=
  let s1 := { s with daily_trades := s.daily_trades + 1,
                     daily_pnl := s.daily_pnl + pnl }
  if s1.daily_pnl ≤ -s1.max_daily_loss then { s1 with is_killed := true } else s1

/-- `RiskCalculator._check_trading_allowed()`: reset the daily counters when
the date changed (the kill flag is NOT reset there), then check the kill
switch, the daily loss limit and the trade count, in that order.  `today` is
the value of `date.today()` at the call. -/
def check_trading_allowed (s : RiskCalculator) (today : ℕ) :
    (Bool × Reason) × RiskCalculator :=
  let s1 := if s.current_date ≠ some today then
              { s with current_date := some today, daily_pnl := 0, daily_trades := 0 }
            else s
  if s1.is_killed then ((false, .killSwitch), s1)
  else if s1.daily_pnl ≤ -s1.max_daily_loss then ((false, .dailyLoss), s1)
  else if s1.daily_trades ≥ s1.max_trades_per_day then ((false, .maxTrades), s1)
  else ((true, .ok), s1)

/-- `RiskCalculator._calculate_base_size(confidence)`. -/
def calculate_base_size (s : RiskCalculator) (confidence : ℚ) : ℕ :=
  if confidence < 11/20 then 0
  else if confidence < 13/20 then 1
  else if confidence < 3/4 then 2
  else if confidence < 17/20 then 3
  else if confidence < 19/20 then 4
  else min 5 s.max_position_size

/-- `RiskCalculator._adjust_for_volatility(base_size, volatility, price)`:
`max(1, base_size // 2)` above 2% volatility, `max(1, int(base_size * 0.75))`
above 1% (for a natural `base_size`, `int(base_size * 0.75) = 3*base_size/4`
by truncation), otherwise the base size unchanged. -/
def adjust_for_volatility (base_size : ℕ) (volatility price : ℚ) : ℕ :=
  let vol_pct := volatility / price
  if vol_pct > 1/50 then max 1 (base_size / 2)
  else if vol_pct > 1/100 then max 1 (3 * base_size / 4)
  else base_size

/-- Python truthiness of an optional float: `None` and `0.0` are falsy. -/
def truthy (o : Option ℚ) : Prop := o.getD 0 ≠ 0

instance : DecidablePred truthy := fun o => by unfold truthy; infer_instance

/-- Python `x or d` for an optional float `x`. -/
def pyOr (o : Option ℚ) (d : ℚ) : ℚ := if truthy o then o.getD 0 else d

/-- Result record `RiskParameters`. -/
structure RiskParameters where
  position_size : ℕ
  max_loss_per_trade : ℚ
  stop_distance : ℚ
  target_distance : ℚ
  risk_reward_ratio : ℚ
  can_trade : Bool
  reason : Reason := .ok
  deriving DecidableEq, Repr

/-- `RiskCalculator.calculate(symbol, confidence, volatility, current_price)`.
The `symbol` argument is unused by the source body and omitted. -/
def calculate (s : RiskCalculator) (today : ℕ) (confidence : ℚ)
    (volatility current_price : Option ℚ) : RiskParameters × RiskCalculator :=
  let c := s.check_trading_allowed today
  if c.1.1 = false then
    ({ position_size := 0, max_loss_per_trade := 0, stop_distance := 0,
       target_distance := 0, risk_reward_ratio := 0,
       can_trade := false, reason := c.1.2 }, c.2)
  else
    let s1 := c.2
    let base_size := s1.calculate_base_size confidence
    let vol_adjusted_size :=
      if truthy volatility ∧ truthy current_price then
        adjust_for_volatility base_size (volatility.getD 0) (current_price.getD 0)
      else base_size
    let max_loss := s1.account_size * s1.risk_per_trade_pct / 100 * confidence
    let stop_distance :=
      if truthy volatility then volatility.getD 0 * (3/2)
      else pyOr current_price 100 * (1/200)
    let target_distance :=
      if truthy volatility then volatility.getD 0 * 2
      else pyOr current_price 100 * (1/100)
    let risk_reward := if stop_distance > 0 then target_distance / stop_distance else 0
    ({ position_size := vol_adjusted_size, max_loss_per_trade := max_loss,
       stop_distance := stop_distance, target_distance := target_distance,
       risk_reward_ratio := risk_reward, can_trade := true }, s1)

/-- `RiskCalculator.kill_trading(reason)`. -/
def kill_trading (s : RiskCalculator) : RiskCalculator := { s with is_killed := true }

/-- `RiskCalculator.resume_trading()`. -/
def resume_trading (s : RiskCalculator) : RiskCalculator := { s with is_killed := false }

/-- One call against a `RiskCalculator`, for reasoning about call sequences.
A `check` op is a `_check_trading_allowed` (equivalently the gate part of
`calculate`) performed when `date.today()` is the given day. -/
inductive Op where
  | record (pnl : ℚ)
  | check (today : ℕ)
  | resume
  | kill
  deriving DecidableEq, Repr

/-- State after one op. -/
def stepOp (s : RiskCalculator) : Op → RiskCalculator
  | .record pnl => s.record_trade pnl
  | .check d => (s.check_trading_allowed d).2
  | .resume => s.resume_trading
  | .kill => s.kill_trading

/-- State after a sequence of ops. -/
def runOps (s : RiskCalculator) : List Op → RiskCalculator
  | [] => s
  | op :: ops => runOps (stepOp s op) ops

end RiskCalculator

/-! ## OrderManager (src/tradovate/order_manager.py) -/

/-- `OrderStatus` enumeration. -/
inductive OrderStatus where
  | pending
  | working
  | filled
  | cancelled
  | rejected
  deriving DecidableEq, Repr

/-- `Order` dataclass (timestamp omitted; no claim concerns it). -/
structure Order where
  order_id : ℕ
  symbol : String
  action : String
  quantity : ℕ
  order_type : String
  status : OrderStatus
  price : Option ℚ := none
  stop_price : Option ℚ := none
  fill_price : Option ℚ := none
  filled_qty : ℕ := 0
  deriving DecidableEq, Repr

/-- Arguments passed to `client.place_order` / `client.place_oso_order`:
what the OrderManager actually submits to the broker. -/
structure PlacedRequest where
  symbol : String
  action : String
  quantity : ℕ
  order_type : String
  price : Option ℚ := none
  stop_price : Option ℚ := none
  take_profit : Option ℚ := none
  deriving DecidableEq, Repr

/-- OrderManager state: risk-limit attributes and mutable tracking state.
The broker client is external; each placement takes the broker's response
(`some orderId` when the result dict contains an `"orderId"`) as an input.
The position map is omitted: no claim concerns it. -/
structure OrderManager where
  max_daily_loss : ℚ := 500
  max_trades_per_day : ℕ := 10
  max_position_size : ℕ := 5
  orders : ℕ → Option Order := fun _ => none
  daily_pnl : ℚ := 0
  daily_trades : ℕ := 0
  current_date : Option ℕ := none
  is_killed : Bool := false

namespace OrderManager

/-- `OrderManager._check_new_day()`: unlike the RiskCalculator, this reset
also clears the kill flag. -/
def check_new_day (om : OrderManager) (today : ℕ) : OrderManager :=
  if om.current_date ≠ some today then
    { om with current_date := some today, daily_pnl := 0, daily_trades := 0,
              is_killed := false }
  else om

/-- `OrderManager.can_trade()`: new-day reset, then kill switch, trade count
and daily loss checks in that order; a daily-loss refusal also latches the
kill switch. -/
def can_trade (om : OrderManager) (today : ℕ) : (Bool × Reason) × OrderManager :=
  let om1 := om.check_new_day today
  if om1.is_killed then ((false, .killSwitch), om1)
  else if om1.daily_trades ≥ om1.max_trades_per_day then ((false, .maxTrades), om1)
  else if om1.daily_pnl ≤ -om1.max_daily_loss then
    ((false, .dailyLoss), { om1 with is_killed := true })
  else ((true, .ok), om1)

/-- `OrderManager.place_market_order(symbol, action, quantity)`.  Returns the
order record handed back to the caller, the request submitted to the broker
(if any), and the updated state. -/
def place_market_order (om : OrderManager) (today : ℕ) (symbol action : String)
    (quantity : ℕ) (resp : Option ℕ) :
    Option Order × Option PlacedRequest × OrderManager :=
  let c := om.can_trade today
  if c.1.1 = false then (none, none, c.2)
  else
    let om1 := c.2
    let q := min quantity om1.max_position_size
    let req : PlacedRequest :=
      { symbol := symbol, action := action, quantity := q, order_type := "Market" }
    match resp with
    | some oid =>
        let o : Order := { order_id := oid, symbol := symbol, action := action,
                           quantity := q, order_type := "Market", status := .working }
        (some o, some req,
         { om1 with orders := fun k => if k = oid then some o else om1.orders k,
                    daily_trades := om1.daily_trades + 1 })
    | none => (none, some req, om1)

/-- `OrderManager.place_bracket_order(symbol, action, quantity, stop_loss,
take_profit)`. -/
def place_bracket_order (om : OrderManager) (today : ℕ) (symbol action : String)
    (quantity : ℕ) (stop_loss take_profit : ℚ) (resp : Option ℕ) :
    Option Order × Option PlacedRequest × OrderManager :=
  let c := om.can_trade today
  if c.1.1 = false then (none, none, c.2)
  else
    let om1 := c.2
    let q := min quantity om1.max_position_size
    let req : PlacedRequest :=
      { symbol := symbol, action := action, quantity := q, order_type := "Bracket",
        stop_price := some stop_loss, take_profit := some take_profit }
    match resp with
    | some oid =>
        let o : Order := { order_id := oid, symbol := symbol, action := action,
                           quantity := q, order_type := "Bracket", status := .working,
                           stop_price := some stop_loss, price := some take_profit }
        (some o, some req,
         { om1 with orders := fun k => if k = oid then some o else om1.orders k,
                    daily_trades := om1.daily_trades + 1 })
    | none => (none, some req, om1)

/-- `OrderManager.place_limit_order(symbol, action, quantity, price)` (the
source does not increment the daily trade count here). -/
def place_limit_order (om : OrderManager) (today : ℕ) (symbol action : String)
    (quantity : ℕ) (price : ℚ) (resp : Option ℕ) :
    Option Order × Option PlacedRequest × OrderManager :=
  let c := om.can_trade today
  if c.1.1 = false then (none, none, c.2)
  else
    let om1 := c.2
    let q := min quantity om1.max_position_size
    let req : PlacedRequest :=
      { symbol := symbol, action := action, quantity := q, order_type := "Limit",
        price := some price }
    match resp with
    | some oid =>
        let o : Order := { order_id := oid, symbol := symbol, action := action,
                           quantity := q, order_type := "Limit", status := .working,
                           price := some price }
        (some o, some req,
         { om1 with orders := fun k => if k = oid then some o else om1.orders k })
    | none => (none, some req, om1)

/-- `OrderManager.place_stop_order(symbol, action, quantity, stop_price)`:
the source submits `quantity` directly, without the
`min(quantity, max_position_size)` clamp the other placements perform. -/
def place_stop_order (om : OrderManager) (today : ℕ) (symbol action : String)
    (quantity : ℕ) (stop_price : ℚ) (resp : Option ℕ) :
    Option Order × Option PlacedRequest × OrderManager :=
  let c := om.can_trade today
  if c.1.1 = false then (none, none, c.2)
  else
    let om1 := c.2
    let req : PlacedRequest :=
      { symbol := symbol, action := action, quantity := quantity,
        order_type := "Stop", stop_price := some stop_price }
    match resp with
    | some oid =>
        let o : Order := { order_id := oid, symbol := symbol, action := action,
                           quantity := quantity, order_type := "Stop",
                           status := .working, stop_price := some stop_price }
        (some o, some req,
         { om1 with orders := fun k => if k = oid then some o else om1.orders k })
    | none => (none, some req, om1)

/-- Mutation of one `Order` by `OrderManager.on_fill_event`: record the fill
price, add the fill quantity, and mark `FILLED` once `filled_qty ≥ quantity`. -/
def applyFill (o : Order) (price : ℚ) (qty : ℕ) : Order :=
  let o1 := { o with fill_price := some price, filled_qty := o.filled_qty + qty }
  if o1.quantity ≤ o1.filled_qty then { o1 with status := .filled } else o1

/-- `OrderManager.on_fill_event(data)` for a fill event
`{orderId, price, qty}`: the handler fires only when `orderId` is truthy
(nonzero) and the order is tracked. -/
def on_fill_event (om : OrderManager) (orderId : ℕ) (price : ℚ) (qty : ℕ) :
    OrderManager :=
  if orderId ≠ 0 then
    match om.orders orderId with
    | some o =>
        { om with orders := fun k =>
            if k = orderId then some (applyFill o price qty) else om.orders k }
    | none => om
  else om

/-- Folding a list of fills into one order. -/
def applyFills (o : Order) (fills : List (ℚ × ℕ)) : Order :=
  fills.foldl (fun a f => applyFill a f.1 f.2) o

/-- Folding a list of fill events (all for order id `oid`) through the fill
handler. -/
def runFills (om : OrderManager) (oid : ℕ) (fills : List (ℚ × ℕ)) : OrderManager :=
  fills.foldl (fun m f => m.on_fill_event oid f.1 f.2) om

end OrderManager

/-! ## TechnicalIndicators (src/indicators/indicators.py) -/

namespace Indicators

/-- The EMA recurrence used everywhere in the source:
`(price - ema) * multiplier + ema`. -/
def emaStep (mult ema price : ℚ) : ℚ := (price - ema) * mult + ema

/-- EMA multiplier `2 / (period + 1)`. -/
def emaMult (period : ℕ) : ℚ := 2 / ((period : ℚ) + 1)

/-- The per-symbol EMA portion of `TechnicalIndicators.update`, iterated over
a whole sequence of closes starting from an empty state: the first close
initializes the EMA, each later close applies the incremental recurrence. -/
def incrementalEma (period : ℕ) (closes : List ℚ) : Option ℚ :=
  closes.foldl
    (fun st c => match st with
      | none => some c
      | some e => some (emaStep (emaMult period) e c))
    none

/-- `TechnicalIndicators._calculate_ema(prices, period)`: empty when fewer
than `period` prices, otherwise the list starting with the SMA of the first
`period` prices followed by the incremental recurrence over the rest. -/
def calculate_ema (period : ℕ) (prices : List ℚ) : List ℚ :=
  if prices.length < period then []
  else
    let mult := emaMult period
    let sma := (prices.take period).sum / (period : ℚ)
    List.scanl (fun e p => emaStep mult e p) sma (prices.drop period)

/-- `TechnicalIndicators._detect_crossover(symbol)` on the four stored EMA
values; `(False, False)` when any of them is undefined. -/
def detect_crossover (ema_fast ema_slow prev_fast prev_slow : Option ℚ) :
    Bool × Bool :=
  match ema_fast, ema_slow, prev_fast, prev_slow with
  | some ef, some es, some pf, some ps =>
      (decide (pf ≤ ps) && decide (ef > es),
       decide (pf ≥ ps) && decide (ef < es))
  | _, _, _, _ => (false, false)

/-- The per-symbol ATR store of a `TechnicalIndicators` instance
(`self._atr`), the only state `calculate_stop_target` reads. -/
structure AtrStore where
  atr : String → Option ℚ

/-- `TechnicalIndicators.calculate_stop_target(symbol, entry_price, is_long,
stop_atr_mult, target_atr_mult)`: the source guard is `if not atr:`, which
rejects both a missing ATR and a stored ATR equal to `0.0`. -/
def calculate_stop_target (st : AtrStore) (symbol : String) (entry_price : ℚ)
    (is_long : Bool) (stop_atr_mult : ℚ := 3/2) (target_atr_mult : ℚ := 2) :
    Option ℚ × Option ℚ :=
  let atr := st.atr symbol
  if atr.getD 0 = 0 then (none, none)
  else
    let a := atr.getD 0
    if is_long then
      (some (entry_price - stop_atr_mult * a), some (entry_price + target_atr_mult * a))
    else
      (some (entry_price + stop_atr_mult * a), some (entry_price - target_atr_mult * a))

end Indicators

/-! ## SentimentAggregator (src/sentiment/aggregator.py)

Modelled over `ℝ` because the time-decay weight uses `math.exp`.  An input
item is modelled together with the result of the `sentiment_results` lookup
(`key = text[:100]`) already performed — `sentiment = none` when no scored
result matches its key — and with its timestamp expressed as an age in
minutes relative to the `now` taken at the start of `aggregate`. -/

namespace Aggregator

/-- `DataSource` enumeration (collectors/base_collector.py), in declaration
order — the iteration order of the per-source dicts in `aggregate`. -/
inductive DataSource where
  | twitter
  | reddit
  | news
  deriving DecidableEq, Repr

/-- The sources in enum order. -/
def DataSource.all : List DataSource := [.twitter, .reddit, .news]

/-- One `CollectedData` item as `aggregate` consumes it. -/
structure CollectedData where
  source : DataSource
  sentiment : Option (ℝ × ℝ)
  engagement_score : ℝ
  age_minutes : ℝ

/-- Aggregator configuration (`__init__` arguments plus the
`settings.confidence_threshold` read by `_determine_action`). -/
structure AggConfig where
  twitter_weight : ℝ := 3/10
  reddit_weight : ℝ := 3/10
  news_weight : ℝ := 4/10
  time_decay_halflife : ℝ := 30
  confidence_threshold : ℝ := 11/20

/-- The raw per-source weight passed to `__init__`. -/
def rawWeight (cfg : AggConfig) : DataSource → ℝ
  | .twitter => cfg.twitter_weight
  | .reddit => cfg.reddit_weight
  | .news => cfg.news_weight

noncomputable section

/-- `self.source_weights` after the `__init__` normalization: divided by the
total when the total differs from 1 by more than 0.01. -/
def sourceWeight (cfg : AggConfig) (s : DataSource) : ℝ :=
  let total := cfg.twitter_weight + cfg.reddit_weight + cfg.news_weight
  if |total - 1| > 1/100 then rawWeight cfg s / total else rawWeight cfg s

/-- `time_weight = math.exp(-0.693 * age_minutes / self.time_decay_halflife)`.
Note the source constant is the literal `0.693`, not `ln 2`. -/
def timeWeight (halflife age_minutes : ℝ) : ℝ :=
  Real.exp (-(693/1000) * age_minutes / halflife)

/-- Score used for an item: the looked-up sentiment score, else `0.0`. -/
def itemScore (d : CollectedData) : ℝ := (d.sentiment.map Prod.fst).getD 0

/-- Base confidence used for an item: the looked-up confidence, else `0.3`. -/
def itemConf (d : CollectedData) : ℝ := (d.sentiment.map Prod.snd).getD (3/10)

/-- `weight = time_weight * item.engagement_score * base_confidence`. -/
def itemWeight (cfg : AggConfig) (d : CollectedData) : ℝ :=
  timeWeight cfg.time_decay_halflife d.age_minutes * d.engagement_score * itemConf d

/-- `recent_data`: items within the time window. -/
def recentData (data : List CollectedData) (window : ℝ) : List CollectedData :=
  data.filter (fun d => decide (d.age_minutes ≤ window))

/-- `source_scores[s]`: the `(score, weight)` pairs of the items of source
`s`, in list order. -/
def bucket (cfg : AggConfig) (items : List CollectedData) (s : DataSource) :
    List (ℝ × ℝ) :=
  (items.filter (fun d => decide (d.source = s))).map
    (fun d => (itemScore d, itemWeight cfg d))

/-- `total_weight` of one source bucket. -/
def totalWeight (b : List (ℝ × ℝ)) : ℝ := (b.map Prod.snd).sum

/-- `weighted_avg` of one source bucket. -/
def weightedAvg (b : List (ℝ × ℝ)) : ℝ :=
  (b.map fun x => x.1 * x.2).sum / totalWeight b

/-- Weighted `variance` of one source bucket about its weighted average. -/
def bucketVariance (b : List (ℝ × ℝ)) : ℝ :=
  (b.map fun x => (x.1 - weightedAvg b) ^ 2 * x.2).sum / totalWeight b

/-- `source_confidences[s] = (1/(1+variance)) * min(1, len(scores)/10)`. -/
def bucketConfidence (b : List (ℝ × ℝ)) : ℝ :=
  1 / (1 + bucketVariance b) * min 1 ((b.length : ℝ) / 10)

/-- The sources that end up in `source_averages`: an empty bucket is skipped
(`continue`), and a bucket whose total weight is not positive is skipped too;
an empty bucket has total weight `0`, so presence is exactly a positive total
weight. -/
def presentSources (cfg : AggConfig) (items : List CollectedData) :
    List DataSource :=
  DataSource.all.filter (fun s => decide (0 < totalWeight (bucket cfg items s)))

/-- Numerator accumulated into `composite_score`. -/
def compositeNum (cfg : AggConfig) (items : List CollectedData) : ℝ :=
  ((presentSources cfg items).map fun s =>
    weightedAvg (bucket cfg items s) * sourceWeight cfg s *
      bucketConfidence (bucket cfg items s)).sum

/-- `total_weight` accumulated next to `composite_score`. -/
def compositeDen (cfg : AggConfig) (items : List CollectedData) : ℝ :=
  ((presentSources cfg items).map fun s =>
    sourceWeight cfg s * bucketConfidence (bucket cfg items s)).sum

/-- `composite_score`, normalized only when the accumulated weight is
positive. -/
def compositeScore (cfg : AggConfig) (items : List CollectedData) : ℝ :=
  if 0 < compositeDen cfg items then compositeNum cfg items / compositeDen cfg items
  else compositeNum cfg items

/-- `agreement_factor`: with at least two sources,
`1 / (1 + score_variance * 4)` where `score_variance` is the mean squared
deviation of the source averages about `composite_score`; with a single
source, `0.7`. -/
def agreementFactor (cfg : AggConfig) (items : List CollectedData) : ℝ :=
  let ps := presentSources cfg items
  if 1 < ps.length then
    let c := compositeScore cfg items
    let v := ((ps.map fun s => (weightedAvg (bucket cfg items s) - c) ^ 2).sum) /
      (ps.length : ℝ)
    1 / (1 + v * 4)
  else 7/10

/-- `volume_factor = min(1, len(recent_data)/20)`. -/
def volumeFactor (items : List CollectedData) : ℝ :=
  min 1 ((items.length : ℝ) / 20)

/-- `avg_source_confidence`: mean of the stored source confidences, with a
`max(1, len)` guard in the denominator. -/
def avgSourceConfidence (cfg : AggConfig) (items : List CollectedData) : ℝ :=
  ((presentSources cfg items).map fun s =>
    bucketConfidence (bucket cfg items s)).sum /
    ((max 1 (presentSources cfg items).length : ℕ) : ℝ)

/-- `overall_confidence = agreement_factor * volume_factor *
avg_source_confidence`. -/
def overallConfidence (cfg : AggConfig) (items : List CollectedData) : ℝ :=
  agreementFactor cfg items * volumeFactor items * avgSourceConfidence cfg items

/-- Trading action returned by `_determine_action`. -/
inductive TradeAction where
  | buy
  | sell
  | hold
  deriving DecidableEq, Repr

/-- `SentimentAggregator._determine_action(score, confidence)`. -/
def determine_action (cfg : AggConfig) (score confidence : ℝ) : TradeAction :=
  if confidence < cfg.confidence_threshold then .hold
  else if score > 3/10 then .buy
  else if score < -(3/10) then .sell
  else .hold

/-- `AggregatedSentiment` (timestamp and themes omitted; no claim concerns
them). -/
structure AggregatedSentiment where
  symbol : String
  composite_score : ℝ
  confidence : ℝ
  action : TradeAction
  source_breakdown : List (DataSource × ℝ)
  data_points : ℕ
  time_window_minutes : ℝ

/-- `SentimentAggregator._empty_result(symbol, time_window)`. -/
def empty_result (symbol : String) (time_window : ℝ) : AggregatedSentiment :=
  { symbol := symbol, composite_score := 0, confidence := 0, action := .hold,
    source_breakdown := [], data_points := 0, time_window_minutes := time_window }

/-- `SentimentAggregator.aggregate(data, sentiment_results, symbol,
time_window_minutes)`. -/
def aggregate (cfg : AggConfig) (data : List CollectedData) (symbol : String)
    (time_window_minutes : ℝ := 60) : AggregatedSentiment :=
  if data.isEmpty then empty_result symbol time_window_minutes
  else
    let recent := recentData data time_window_minutes
    if recent.isEmpty then empty_result symbol time_window_minutes
    else
      { symbol := symbol,
        composite_score := compositeScore cfg recent,
        confidence := overallConfidence cfg recent,
        action := determine_action cfg (compositeScore cfg recent)
          (overallConfidence cfg recent),
        source_breakdown := (presentSources cfg recent).map
          (fun s => (s, weightedAvg (bucket cfg recent s))),
        data_points := recent.length,
        time_window_minutes := time_window_minutes }

/-- The claim's reading of the agreement variance (for comparison with the
source): variance of a list of values about their own arithmetic mean. -/
def varianceAboutMean (xs : List ℝ) : ℝ :=
  (xs.map fun x => (x - xs.sum / (xs.length : ℝ)) ^ 2).sum / (xs.length : ℝ)

/-- Concrete input: a fresh (age 0) micro-blog observation scored +1 with
confidence 1 and engagement 1. -/
def twitterItem : CollectedData :=
  { source := .twitter, sentiment := some (1, 1), engagement_score := 1,
    age_minutes := 0 }

/-- Concrete input: a fresh (age 0) news observation scored 0 with
confidence 1 and engagement 1. -/
def newsItem : CollectedData :=
  { source := .news, sentiment := some (0, 1), engagement_score := 1,
    age_minutes := 0 }

end

end Aggregator

/-! ## Theorems -/

open RiskCalculator OrderManager Indicators Aggregator

/-! ### RiskCalculator helper lemmas -/

theorem record_trade_fields (s : RiskCalculator) (pnl : ℚ) :
    (s.record_trade pnl).daily_pnl = s.daily_pnl + pnl ∧
    (s.record_trade pnl).daily_trades = s.daily_trades + 1 ∧
    (s.record_trade pnl).current_date = s.current_date ∧
    (s.record_trade pnl).max_daily_loss = s.max_daily_loss ∧
    (s.record_trade pnl).max_trades_per_day = s.max_trades_per_day ∧
    (s.record_trade pnl).max_position_size = s.max_position_size ∧
    (s.record_trade pnl).risk_per_trade_pct = s.risk_per_trade_pct ∧
    (s.record_trade pnl).account_size = s.account_size := by
  unfold RiskCalculator.record_trade
  dsimp only
  split <;> simp

theorem record_trade_is_killed_eq (s : RiskCalculator) (pnl : ℚ) :
    (s.record_trade pnl).is_killed =
      (s.is_killed || decide (s.daily_pnl + pnl ≤ -s.max_daily_loss)) := by
  unfold RiskCalculator.record_trade
  dsimp only
  split <;> rename_i h <;> simp_all

theorem check_trading_allowed_state (s : RiskCalculator) (d : ℕ) :
    (s.check_trading_allowed d).2 =
      if s.current_date ≠ some d then
        { s with current_date := some d, daily_pnl := 0, daily_trades := 0 }
      else s := by
  unfold RiskCalculator.check_trading_allowed
  dsimp only
  split_ifs <;> simp_all

theorem check_trading_allowed_of_killed (s : RiskCalculator) (d : ℕ)
    (h : s.is_killed = true) :
    (s.check_trading_allowed d).1 = (false, .killSwitch) := by
  unfold RiskCalculator.check_trading_allowed
  dsimp only
  split_ifs <;> simp_all

theorem stepOp_killed (s : RiskCalculator) (op : RiskCalculator.Op)
    (h : s.is_killed = true) (hop : op ≠ .resume) :
    (s.stepOp op).is_killed = true := by
  cases op with
  | record pnl => rw [RiskCalculator.stepOp, record_trade_is_killed_eq, h, Bool.true_or]
  | check d =>
      rw [RiskCalculator.stepOp, check_trading_allowed_state]
      split <;> simp_all
  | resume => exact absurd rfl hop
  | kill => rfl

theorem runOps_killed (s : RiskCalculator) (ops : List RiskCalculator.Op)
    (h : s.is_killed = true) (hno : ∀ op ∈ ops, op ≠ RiskCalculator.Op.resume) :
    (s.runOps ops).is_killed = true := by
  induction ops generalizing s with
  | nil => exact h
  | cons op ops ih =>
      rw [RiskCalculator.runOps]
      exact ih _ (stepOp_killed s op h (hno op (List.mem_cons_self op ops)))
        (fun o ho => hno o (List.mem_cons_of_mem op ho))

/-! ### Claim C10 -/

/-- C10. `RiskCalculator.record_trade(pnl)` increments `_daily_trades` by
exactly one, adds `pnl` to `_daily_pnl`, leaves `_current_date` and all
configuration fields unchanged, and changes `_is_killed` only from false to
true, and only when the new `_daily_pnl ≤ -max_daily_loss`. -/
theorem record_trade_frame (s : RiskCalculator) (pnl : ℚ) :
    (s.record_trade pnl).daily_trades = s.daily_trades + 1 ∧
    (s.record_trade pnl).daily_pnl = s.daily_pnl + pnl ∧
    (s.record_trade pnl).current_date = s.current_date ∧
    (s.record_trade pnl).max_daily_loss = s.max_daily_loss ∧
    (s.record_trade pnl).max_trades_per_day = s.max_trades_per_day ∧
    (s.record_trade pnl).max_position_size = s.max_position_size ∧
    (s.record_trade pnl).risk_per_trade_pct = s.risk_per_trade_pct ∧
    (s.record_trade pnl).account_size = s.account_size ∧
    ((s.record_trade pnl).is_killed ≠ s.is_killed →
      s.is_killed = false ∧ (s.record_trade pnl).is_killed = true ∧
        (s.record_trade pnl).daily_pnl ≤ -s.max_daily_loss) := by
  obtain ⟨h1, h2, h3, h4, h5, h6, h7, h8⟩ := record_trade_fields s pnl
  refine ⟨h2, h1, h3, h4, h5, h6, h7, h8, ?_⟩
  intro hk
  rw [record_trade_is_killed_eq] at hk ⊢
  rw [h1]
  cases hs : s.is_killed with
  | true => simp [hs] at hk
  | false =>
      by_cases hc : s.daily_pnl + pnl ≤ -s.max_daily_loss
      · simp [hc]
      · simp [hc] at hk

/-- Witness for C10 at a concrete input: a losing trade on the default
configuration. -/
theorem record_trade_frame_witness :
    (({} : RiskCalculator).record_trade (-600)).daily_trades = 0 + 1 ∧
    (({} : RiskCalculator).record_trade (-600)).daily_pnl = 0 + (-600) ∧
    (({} : RiskCalculator).record_trade (-600)).current_date = none := by
  obtain ⟨h1, h2, h3, -⟩ := record_trade_frame ({} : RiskCalculator) (-600)
  exact ⟨h1, h2, h3⟩

/-! ### Claim C1 -/

/-- C1 counterexample. Breach the daily loss limit on day 0, then call
`_check_trading_allowed` on day 1: the counters reset but the kill switch
stays latched and the call returns `(false, kill switch)` — the claim says a
fresh UTC day unkills and returns true. -/
theorem fresh_day_does_not_unkill :
    ((((({} : RiskCalculator).check_trading_allowed 0).2.record_trade
        (-600)).check_trading_allowed 1).1.1 = false ∧
     (((({} : RiskCalculator).check_trading_allowed 0).2.record_trade
        (-600)).check_trading_allowed 1).1.2 = Reason.killSwitch ∧
     (((({} : RiskCalculator).check_trading_allowed 0).2.record_trade
        (-600)).check_trading_allowed 1).2.daily_pnl = 0 ∧
     (((({} : RiskCalculator).check_trading_allowed 0).2.record_trade
        (-600)).check_trading_allowed 1).2.daily_trades = 0 ∧
     (((({} : RiskCalculator).check_trading_allowed 0).2.record_trade
        (-600)).check_trading_allowed 1).2.is_killed = true) := by
  have h1 : ({} : RiskCalculator).check_trading_allowed 0 =
      ((true, .ok), { current_date := some 0 }) := by
    simp [RiskCalculator.check_trading_allowed]
  have h2 : ({ current_date := some 0 } : RiskCalculator).record_trade (-600) =
      { current_date := some 0, daily_pnl := -600, daily_trades := 1,
        is_killed := true } := by
    simp [RiskCalculator.record_trade] <;> norm_num
  have h3 : ({ current_date := some 0, daily_pnl := -600, daily_trades := 1,
               is_killed := true } : RiskCalculator).check_trading_allowed 1 =
      ((false, .killSwitch), { current_date := some 1, is_killed := true }) := by
    simp [RiskCalculator.check_trading_allowed]
  simp [h1, h2, h3]

/-- C1, amended. Once `dailyPnL ≤ -maxDailyLoss`, `record_trade` latches
the kill switch, and every later `canTrade` returns `(false, kill switch)`
until `resume()` is called: the kill flag survives any sequence of calls not
containing `resume`, and in particular a `canTrade` call on a later UTC date
resets `dailyPnL`, `dailyTrades` and `currentDate` but leaves `killed` true
and still returns false.  After `resume()`, a call on a fresh date (with
positive limits) returns true. -/
theorem kill_latch_until_resume :
    (∀ (s : RiskCalculator) (pnl : ℚ),
      (s.record_trade pnl).daily_pnl ≤ -s.max_daily_loss →
      (s.record_trade pnl).is_killed = true) ∧
    (∀ (s : RiskCalculator) (d : ℕ), s.is_killed = true →
      (s.check_trading_allowed d).1.1 = false ∧
      (s.check_trading_allowed d).1.2 = Reason.killSwitch ∧
      (s.check_trading_allowed d).2.is_killed = true) ∧
    (∀ (s : RiskCalculator) (ops : List RiskCalculator.Op), s.is_killed = true →
      (∀ op ∈ ops, op ≠ RiskCalculator.Op.resume) →
      (s.runOps ops).is_killed = true) ∧
    (∀ (s : RiskCalculator) (d : ℕ), s.current_date ≠ some d →
      (s.check_trading_allowed d).2.daily_pnl = 0 ∧
      (s.check_trading_allowed d).2.daily_trades = 0 ∧
      (s.check_trading_allowed d).2.current_date = some d ∧
      (s.check_trading_allowed d).2.is_killed = s.is_killed) ∧
    (∀ (s : RiskCalculator) (d : ℕ), s.is_killed = false →
      s.current_date ≠ some d → 0 < s.max_daily_loss → 0 < s.max_trades_per_day →
      (s.check_trading_allowed d).1.1 = true) := by
  refine ⟨?_, ?_, ?_, ?_, ?_⟩
  · intro s pnl h
    rw [record_trade_is_killed_eq]
    rw [(record_trade_fields s pnl).1] at h
    simp [h]
  · intro s d h
    have h1 := check_trading_allowed_of_killed s d h
    have h2 := check_trading_allowed_state s d
    refine ⟨by rw [h1], by rw [h1], ?_⟩
    rw [h2]; split <;> simp [h]
  · exact runOps_killed
  · intro s d h
    rw [check_trading_allowed_state, if_pos h]
    exact ⟨rfl, rfl, rfl, rfl⟩
  · intro s d hk hd hmax htr
    unfold RiskCalculator.check_trading_allowed
    dsimp only
    rw [if_pos hd]
    have c1 : ¬ ((0:ℚ) ≤ -s.max_daily_loss) := by linarith
    have c2 : ¬ (s.max_trades_per_day ≤ 0) := by omega
    simp [hk, c1, c2]

/-- Witness for C1 at concrete inputs: the latch fires on a −600 trade
against the default configuration, a killed state refuses on any day, the
kill survives a resume-free call sequence, a fresh day zeroes the counters,
and after resume a fresh day allows trading. -/
theorem kill_latch_until_resume_witness :
    (({} : RiskCalculator).record_trade (-600)).is_killed = true ∧
    (({ is_killed := true } : RiskCalculator).check_trading_allowed 1).1.1 = false ∧
    (({ is_killed := true } : RiskCalculator).runOps
      [.record 5, .check 3, .kill]).is_killed = true ∧
    (({} : RiskCalculator).check_trading_allowed 0).2.daily_pnl = 0 ∧
    (({} : RiskCalculator).check_trading_allowed 0).1.1 = true := by
  refine ⟨?_, ?_, ?_, ?_, ?_⟩
  · exact kill_latch_until_resume.1 {} (-600)
      (by simp [RiskCalculator.record_trade] <;> norm_num)
  · exact (kill_latch_until_resume.2.1 { is_killed := true } 1 rfl).1
  · exact kill_latch_until_resume.2.2.1 { is_killed := true }
      [.record 5, .check 3, .kill] rfl (by decide)
  · exact (kill_latch_until_resume.2.2.2.1 {} 0 (by simp)).1
  · exact kill_latch_until_resume.2.2.2.2 {} 0 rfl (by simp) (by norm_num) (by norm_num)

/-! ### Claim C4 -/

/-- C4 counterexample. `calculate` with confidence 0.5 (< 0.55), trading
allowed, volatility 3 and price 100 (3% volatility) returns position size 1,
not 0: `max(1, base_size // 2)` raises the zero base size to 1. -/
theorem low_confidence_sized_one :
    (({} : RiskCalculator).calculate 0 (1/2) (some 3) (some 100)).1.position_size = 1 ∧
    (({} : RiskCalculator).calculate 0 (1/2) (some 3) (some 100)).1.can_trade = true ∧
    ((1:ℚ)/2) < 11/20 := by
  have h1 : ({} : RiskCalculator).check_trading_allowed 0 =
      ((true, .ok), { current_date := some 0 }) := by
    simp [RiskCalculator.check_trading_allowed]
  refine ⟨?_, ?_, by norm_num⟩ <;>
  · unfold RiskCalculator.calculate
    simp only [h1]
    norm_num [RiskCalculator.calculate_base_size,
      RiskCalculator.adjust_for_volatility, RiskCalculator.truthy]

/-- C4, amended. With confidence < 0.55 and trading allowed, the base
size is 0 and the returned position size is 0 — unless the volatility
adjustment applies (volatility and price both truthy) with
`volatility/price > 0.01`, in which case the `max(1, ·)` floors raise the
zero base size to 1. -/
theorem low_confidence_position_size (s : RiskCalculator) (today : ℕ)
    (confidence : ℚ) (v p : Option ℚ)
    (hconf : confidence < 11/20)
    (hallow : (s.check_trading_allowed today).1.1 = true) :
    (s.calculate today confidence v p).1.position_size =
      if (truthy v ∧ truthy p) ∧ 1/100 < v.getD 0 / p.getD 0 then 1 else 0 := by
  unfold RiskCalculator.calculate
  dsimp only
  rw [if_neg (by simp [hallow])]
  dsimp only
  have hbase : ∀ t : RiskCalculator, t.calculate_base_size confidence = 0 := by
    intro t; unfold RiskCalculator.calculate_base_size; rw [if_pos hconf]
  rw [hbase]
  by_cases htv : truthy v ∧ truthy p
  · rw [if_pos htv]
    unfold RiskCalculator.adjust_for_volatility
    dsimp only
    by_cases h1 : v.getD 0 / p.getD 0 > 1/50
    · rw [if_pos h1, if_pos ⟨htv, by linarith⟩]; simp
    · rw [if_neg h1]
      by_cases h2 : v.getD 0 / p.getD 0 > 1/100
      · rw [if_pos h2, if_pos ⟨htv, h2⟩]; simp
      · rw [if_neg h2, if_neg (fun hh => h2 hh.2)]
  · rw [if_neg htv, if_neg (fun hh => htv hh.1)]

/-- Witness for C4 at a concrete input: confidence 0.54, no volatility data,
size 0. -/
theorem low_confidence_position_size_witness :
    (({} : RiskCalculator).calculate 0 (54/100) none none).1.position_size =
      (if (truthy none ∧ truthy none) ∧
          1/100 < (none : Option ℚ).getD 0 / (none : Option ℚ).getD 0
       then 1 else 0) :=
  low_confidence_position_size {} 0 (54/100) none none (by norm_num)
    (by simp [RiskCalculator.check_trading_allowed]; norm_num)

/-! ### OrderManager helper lemmas -/

theorem applyFill_quantity (o : Order) (p : ℚ) (q : ℕ) :
    (OrderManager.applyFill o p q).quantity = o.quantity := by
  unfold OrderManager.applyFill
  dsimp only
  split <;> rfl

theorem applyFill_filled_qty (o : Order) (p : ℚ) (q : ℕ) :
    (OrderManager.applyFill o p q).filled_qty = o.filled_qty + q := by
  unfold OrderManager.applyFill
  dsimp only
  split <;> rfl

theorem applyFill_status (o : Order) (p : ℚ) (q : ℕ) :
    (OrderManager.applyFill o p q).status =
      if o.quantity ≤ o.filled_qty + q then .filled else o.status := by
  unfold OrderManager.applyFill
  dsimp only
  split_ifs <;> rfl

theorem applyFills_cons (o : Order) (f : ℚ × ℕ) (fs : List (ℚ × ℕ)) :
    OrderManager.applyFills o (f :: fs) = OrderManager.applyFills (OrderManager.applyFill o f.1 f.2) fs := rfl

theorem runFills_cons (om : OrderManager) (oid : ℕ) (f : ℚ × ℕ)
    (fs : List (ℚ × ℕ)) :
    om.runFills oid (f :: fs) = (om.on_fill_event oid f.1 f.2).runFills oid fs := rfl

theorem applyFill_inv (Q : ℕ) (o : Order) (p : ℚ) (q : ℕ)
    (hQ : o.quantity = Q) (hiff : o.status = .filled ↔ o.filled_qty = Q)
    (hq : o.filled_qty + q ≤ Q) :
    (OrderManager.applyFill o p q).quantity = Q ∧
    (OrderManager.applyFill o p q).filled_qty = o.filled_qty + q ∧
    ((OrderManager.applyFill o p q).status = .filled ↔
      (OrderManager.applyFill o p q).filled_qty = Q) := by
  refine ⟨by rw [applyFill_quantity, hQ], applyFill_filled_qty o p q, ?_⟩
  rw [applyFill_status, applyFill_filled_qty, hQ]
  by_cases hcond : Q ≤ o.filled_qty + q
  · rw [if_pos hcond]
    exact ⟨fun _ => by omega, fun _ => rfl⟩
  · rw [if_neg hcond]
    constructor
    · intro hst
      have := hiff.mp hst
      omega
    · intro heq
      exact absurd (le_of_eq heq.symm) hcond

theorem applyFills_inv (Q : ℕ) (fills : List (ℚ × ℕ)) : ∀ (o : Order),
    o.quantity = Q → (o.status = .filled ↔ o.filled_qty = Q) →
    o.filled_qty + (fills.map Prod.snd).sum ≤ Q →
    (OrderManager.applyFills o fills).quantity = Q ∧
    (OrderManager.applyFills o fills).filled_qty = o.filled_qty + (fills.map Prod.snd).sum ∧
    ((OrderManager.applyFills o fills).status = .filled ↔ (OrderManager.applyFills o fills).filled_qty = Q) := by
  induction fills with
  | nil =>
      intro o h1 h2 h3
      exact ⟨h1, by simp [OrderManager.applyFills], by
        simpa [OrderManager.applyFills] using h2⟩
  | cons f fs ih =>
      intro o h1 h2 h3
      rw [List.map_cons, List.sum_cons] at h3
      have hstep := applyFill_inv Q o f.1 f.2 h1 h2 (by omega)
      have hrest := ih (OrderManager.applyFill o f.1 f.2) hstep.1
        hstep.2.2 (by rw [hstep.2.1]; omega)
      rw [applyFills_cons]
      refine ⟨hrest.1, ?_, hrest.2.2⟩
      rw [hrest.2.1, hstep.2.1, List.map_cons, List.sum_cons]
      omega

theorem runFills_lookup (oid : ℕ) (hoid : oid ≠ 0) (fills : List (ℚ × ℕ)) :
    ∀ (om : OrderManager) (o : Order), om.orders oid = some o →
      (om.runFills oid fills).orders oid = some (OrderManager.applyFills o fills) := by
  induction fills with
  | nil =>
      intro om o ho
      simpa [OrderManager.runFills, OrderManager.applyFills] using ho
  | cons f fs ih =>
      intro om o ho
      rw [runFills_cons, applyFills_cons]
      apply ih
      unfold OrderManager.on_fill_event
      rw [if_pos hoid, ho]
      simp

/-! ### Claim C2 -/

/-- C2 counterexample. A tracked order of quantity 1 receives a single
fill event of quantity 2: the handler adds the whole fill, so `filledQty = 2
> qty = 1`, and the status is `FILLED` although `filledQty ≠ qty`. -/
theorem overfill_breaks_invariant :
    (((({ orders := fun k => if k = 1 then
           some { order_id := 1, symbol := "MNQ", action := "Buy", quantity := 1,
                  order_type := "Market", status := .working } else none } :
         OrderManager).on_fill_event 1 100 2).orders 1).map Order.filled_qty =
       some 2) ∧
    (((({ orders := fun k => if k = 1 then
           some { order_id := 1, symbol := "MNQ", action := "Buy", quantity := 1,
                  order_type := "Market", status := .working } else none } :
         OrderManager).on_fill_event 1 100 2).orders 1).map Order.quantity =
       some 1) ∧
    (((({ orders := fun k => if k = 1 then
           some { order_id := 1, symbol := "MNQ", action := "Buy", quantity := 1,
                  order_type := "Market", status := .working } else none } :
         OrderManager).on_fill_event 1 100 2).orders 1).map Order.status =
       some .filled) ∧
    ¬ ((2:ℕ) ≤ 1) ∧ (2:ℕ) ≠ 1 := by
  refine ⟨?_, ?_, ?_, by omega, by omega⟩ <;>
    simp [OrderManager.on_fill_event, OrderManager.applyFill]

/-- C2, amended. For an order tracked under a truthy (nonzero) id that
starts `WORKING` with `filledQty = 0` and positive quantity, and any sequence
of fill events whose quantities sum to at most the order quantity, after every
prefix of the sequence the handler leaves `filledQty` equal to the sum of the
fills applied so far, `filledQty ≤ qty` holds, and the status is `FILLED` iff
`filledQty = qty`.  (Without the no-overfill proviso the invariant fails —
see the counterexample — and in general the source sets `FILLED` exactly when
`filledQty ≥ qty`.) -/
theorem fill_handler_invariant (om : OrderManager) (oid : ℕ) (o : Order)
    (fills : List (ℚ × ℕ))
    (hoid : oid ≠ 0) (ho : om.orders oid = some o)
    (hq0 : o.filled_qty = 0) (hst : o.status = .working) (hq : 0 < o.quantity)
    (hsum : (fills.map Prod.snd).sum ≤ o.quantity) :
    ∀ n : ℕ,
      ((om.runFills oid (fills.take n)).orders oid).map Order.quantity =
        some o.quantity ∧
      ((om.runFills oid (fills.take n)).orders oid).map Order.filled_qty =
        some (((fills.take n).map Prod.snd).sum) ∧
      ((fills.take n).map Prod.snd).sum ≤ o.quantity ∧
      (((om.runFills oid (fills.take n)).orders oid).map Order.status =
          some .filled ↔
        ((fills.take n).map Prod.snd).sum = o.quantity) := by
  intro n
  have hpre : ((fills.take n).map Prod.snd).sum ≤ (fills.map Prod.snd).sum := by
    have hsplit : (fills.map Prod.snd).sum =
        ((fills.take n).map Prod.snd).sum + ((fills.drop n).map Prod.snd).sum := by
      rw [← List.sum_append, ← List.map_append, List.take_append_drop]
    omega
  have hlook := runFills_lookup oid hoid (fills.take n) om o ho
  have hiff0 : o.status = .filled ↔ o.filled_qty = o.quantity := by
    rw [hst, hq0]
    constructor
    · intro h; cases h
    · intro h; omega
  have hinv := applyFills_inv o.quantity (fills.take n) o rfl hiff0
    (by rw [hq0]; omega)
  rw [hlook]
  refine ⟨by rw [Option.map_some', hinv.1], by rw [Option.map_some', hinv.2.1, hq0,
    Nat.zero_add], by omega, ?_⟩
  rw [Option.map_some']
  rw [hinv.2.1, hq0, Nat.zero_add] at hinv
  constructor
  · intro hf
    exact hinv.2.2.mp (Option.some_injective _ hf)
  · intro hf
    rw [hinv.2.2.mpr hf]

/-- Witness for C2 at a concrete input: an order of quantity 2 receiving two
unit fills, checked after the full sequence. -/
theorem fill_handler_invariant_witness :
    ((({ orders := fun k => if k = 1 then
          some { order_id := 1, symbol := "MNQ", action := "Buy", quantity := 2,
                 order_type := "Market", status := .working } else none } :
        OrderManager).runFills 1
          (([(100, 1), (101, 1)] : List (ℚ × ℕ)).take 2)).orders 1).map
      Order.filled_qty =
      some (((([(100, 1), (101, 1)] : List (ℚ × ℕ)).take 2).map Prod.snd).sum) := by
  have h := fill_handler_invariant
    ({ orders := fun k => if k = 1 then
        some { order_id := 1, symbol := "MNQ", action := "Buy", quantity := 2,
               order_type := "Market", status := .working } else none } :
      OrderManager) 1
    { order_id := 1, symbol := "MNQ", action := "Buy", quantity := 2,
      order_type := "Market", status := .working }
    [(100, 1), (101, 1)] (by decide) (by simp) rfl rfl (by decide) (by decide) 2
  exact h.2.1

/-! ### Claim C3 -/

theorem can_trade_max_position_size (om : OrderManager) (d : ℕ) :
    (om.can_trade d).2.max_position_size = om.max_position_size := by
  unfold OrderManager.can_trade OrderManager.check_new_day
  dsimp only
  split_ifs <;> rfl

/-- C3 counterexample. `place_stop_order` submits the requested quantity
unclamped: with the default `max_position_size = 5` and a request for 7
contracts, the broker receives quantity 7, not `min 7 5 = 5`. -/
theorem stop_order_not_clamped :
    ((({} : OrderManager).place_stop_order 0 "MNQ" "Buy" 7 100 (some 1)).2.1.map
       PlacedRequest.quantity = some 7) ∧
    min 7 ({} : OrderManager).max_position_size = 5 ∧ (7:ℕ) ≠ 5 := by
  refine ⟨?_, by norm_num, by norm_num⟩
  simp [OrderManager.place_stop_order, OrderManager.can_trade,
    OrderManager.check_new_day]
  norm_num

/-- C3, amended. Every placement first calls `can_trade`; on refusal it
returns null, submits nothing to the broker, and its entire resulting state is
exactly the post-`can_trade` state (so no order is recorded and no trade
counted; `can_trade` itself may reset the daily counters on a new day or
latch the kill switch).  On an allowed call, the quantity submitted to the
broker is `min(q, maxPositionSize)` for market, bracket and limit orders, but
`place_stop_order` submits the requested quantity `q` unclamped. -/
theorem placements_gate_and_clamp (om : OrderManager) (today : ℕ)
    (sym act : String) (q : ℕ) (sl tp pr sp : ℚ) (resp : Option ℕ) :
    ((om.can_trade today).1.1 = false →
      (om.place_market_order today sym act q resp =
         (none, none, (om.can_trade today).2) ∧
       om.place_bracket_order today sym act q sl tp resp =
         (none, none, (om.can_trade today).2) ∧
       om.place_limit_order today sym act q pr resp =
         (none, none, (om.can_trade today).2) ∧
       om.place_stop_order today sym act q sp resp =
         (none, none, (om.can_trade today).2))) ∧
    ((om.can_trade today).1.1 = true →
      ((om.place_market_order today sym act q resp).2.1.map
          PlacedRequest.quantity = some (min q om.max_position_size) ∧
       (om.place_bracket_order today sym act q sl tp resp).2.1.map
          PlacedRequest.quantity = some (min q om.max_position_size) ∧
       (om.place_limit_order today sym act q pr resp).2.1.map
          PlacedRequest.quantity = some (min q om.max_position_size) ∧
       (om.place_stop_order today sym act q sp resp).2.1.map
          PlacedRequest.quantity = some q)) := by
  constructor
  · intro h
    refine ⟨?_, ?_, ?_, ?_⟩
    · unfold OrderManager.place_market_order
      rw [if_pos h]
    · unfold OrderManager.place_bracket_order
      rw [if_pos h]
    · unfold OrderManager.place_limit_order
      rw [if_pos h]
    · unfold OrderManager.place_stop_order
      rw [if_pos h]
  · intro h
    have hmps := can_trade_max_position_size om today
    refine ⟨?_, ?_, ?_, ?_⟩
    · unfold OrderManager.place_market_order
      rw [if_neg (by simp [h])]
      cases resp <;> simp [hmps]
    · unfold OrderManager.place_bracket_order
      rw [if_neg (by simp [h])]
      cases resp <;> simp [hmps]
    · unfold OrderManager.place_limit_order
      rw [if_neg (by simp [h])]
      cases resp <;> simp [hmps]
    · unfold OrderManager.place_stop_order
      rw [if_neg (by simp [h])]
      cases resp <;> simp

/-- Witness for C3 at concrete inputs: a killed manager refuses a market
order; a fresh manager submits a stop order for the unclamped quantity 7. -/
theorem placements_gate_and_clamp_witness :
    (({ is_killed := true, current_date := some 0 } : OrderManager).place_market_order
       0 "MNQ" "Buy" 7 (some 1) =
      (none, none,
        (({ is_killed := true, current_date := some 0 } : OrderManager).can_trade 0).2)) ∧
    ((({} : OrderManager).place_stop_order 0 "MNQ" "Sell" 7 100 (some 2)).2.1.map
       PlacedRequest.quantity = some 7) := by
  constructor
  · exact ((placements_gate_and_clamp _ 0 "MNQ" "Buy" 7 0 0 0 0 (some 1)).1
      (by simp [OrderManager.can_trade, OrderManager.check_new_day])).1
  · exact ((placements_gate_and_clamp {} 0 "MNQ" "Sell" 7 0 0 0 100 (some 2)).2
      (by simp [OrderManager.can_trade, OrderManager.check_new_day]; norm_num)).2.2.2

/-! ### Indicators helper lemmas -/

theorem getLast?_scanl (f : ℚ → ℚ → ℚ) (l : List ℚ) : ∀ (b : ℚ),
    (List.scanl f b l).getLast? = some (l.foldl f b) := by
  induction l with
  | nil => intro b; simp
  | cons x xs ih =>
      intro b
      rw [List.scanl_cons, List.foldl_cons, ← ih (f b x)]
      cases hxs : List.scanl f (f b x) xs with
      | nil => exact absurd (congrArg List.length hxs) (by simp [List.length_scanl])
      | cons c cs => simp [List.getLast?_cons_cons]

/-! ### Claim C7 -/

/-- C7. When all four EMA values are defined, `crossUp` is true iff
`prevEmaFast ≤ prevEmaSlow` and `emaFast > emaSlow`, `crossDown` is true iff
`prevEmaFast ≥ prevEmaSlow` and `emaFast < emaSlow`, and the two are never
both true in the same update. -/
theorem crossover_characterization (ef es pf ps : ℚ) :
    ((detect_crossover (some ef) (some es) (some pf) (some ps)).1 = true ↔
      pf ≤ ps ∧ ef > es) ∧
    ((detect_crossover (some ef) (some es) (some pf) (some ps)).2 = true ↔
      pf ≥ ps ∧ ef < es) ∧
    ¬ ((detect_crossover (some ef) (some es) (some pf) (some ps)).1 = true ∧
       (detect_crossover (some ef) (some es) (some pf) (some ps)).2 = true) := by
  refine ⟨by simp [Indicators.detect_crossover],
    by simp [Indicators.detect_crossover], ?_⟩
  simp only [Indicators.detect_crossover, Bool.and_eq_true, decide_eq_true_eq]
  rintro ⟨⟨h1, h2⟩, h3, h4⟩
  linarith

/-- Witness for C7 at a concrete input: a genuine upward cross. -/
theorem crossover_characterization_witness :
    (detect_crossover (some 2) (some 1) (some 0) (some 0)).1 = true :=
  (crossover_characterization 2 1 0 0).1.mpr ⟨le_refl 0, by norm_num⟩

/-! ### Claim C9 -/

/-- C9. For a symbol whose stored ATR is exactly `0.0`,
`calculate_stop_target` returns `(None, None)`, indistinguishable from a
symbol whose ATR was never computed: the source guard `if not atr:` treats
`0.0` like a missing value. -/
theorem stop_target_zero_atr (st st' : AtrStore) (symbol : String)
    (entry : ℚ) (is_long : Bool) (sm tm : ℚ)
    (h : st.atr symbol = some 0) (h' : st'.atr symbol = none) :
    calculate_stop_target st symbol entry is_long sm tm = (none, none) ∧
    calculate_stop_target st' symbol entry is_long sm tm = (none, none) := by
  constructor <;> simp [Indicators.calculate_stop_target, h, h']

/-- Witness for C9 at a concrete input: a store holding ATR `0.0` for every
symbol and a store holding none. -/
theorem stop_target_zero_atr_witness :
    calculate_stop_target ⟨fun _ => some 0⟩ "MNQ" 15 true (3/2) 2 =
      (none, none) ∧
    calculate_stop_target ⟨fun _ => none⟩ "MNQ" 15 true (3/2) 2 =
      (none, none) :=
  stop_target_zero_atr ⟨fun _ => some 0⟩ ⟨fun _ => none⟩ "MNQ" 15 true (3/2) 2
    rfl rfl

/-! ### Claim C6 -/

/-- C6 counterexample. For period 2 and closes `[0, 10]`, iterating
`update` from an empty state gives EMA `20/3` (first close seeds the EMA),
while the batch `_calculate_ema` gives `5` (SMA seed): relative error `1/3`,
far above `1e-9`. -/
theorem incremental_ema_differs_from_batch :
    incrementalEma 2 [0, 10] = some (20/3) ∧
    (calculate_ema 2 [0, 10]).getLast? = some 5 ∧
    ¬ |(20:ℚ)/3 - 5| ≤ 1/10^9 * |(5:ℚ)| := by
  refine ⟨?_, ?_, ?_⟩
  · simp [Indicators.incrementalEma, Indicators.emaStep, Indicators.emaMult]
    norm_num
  · simp [Indicators.calculate_ema, Indicators.emaMult]
    norm_num
  · have habs : |(20:ℚ)/3 - 5| = 5/3 := by
      rw [show (20:ℚ)/3 - 5 = 5/3 by norm_num]
      exact abs_of_pos (by norm_num)
    rw [habs]
    norm_num

/-- C6, amended. The batch EMA does equal the SMA seed followed by the
same incremental recurrence over the remaining closes (exactly, in exact
arithmetic) — but iterating `update` over the whole sequence from an empty
state seeds with the first close instead of the SMA, and its final value
differs from the batch EMA already on `[0, 10]` with period 2 (20/3 vs 5). -/
theorem batch_ema_refines_seeded_incremental (period : ℕ) (closes : List ℚ)
    (_hp : 0 < period) (hlen : period ≤ closes.length) :
    (calculate_ema period closes).getLast? =
      some ((closes.drop period).foldl
        (fun e c => emaStep (emaMult period) e c)
        ((closes.take period).sum / (period : ℚ))) := by
  unfold Indicators.calculate_ema
  rw [if_neg (by omega)]
  exact getLast?_scanl _ _ _

/-- Witness for C6 at a concrete input: period 3 over four closes. -/
theorem batch_ema_refines_seeded_incremental_witness :
    (calculate_ema 3 [1, 2, 3, 4]).getLast? =
      some ((([1, 2, 3, 4] : List ℚ).drop 3).foldl
        (fun e c => emaStep (emaMult 3) e c)
        ((([1, 2, 3, 4] : List ℚ).take 3).sum / (3 : ℚ))) :=
  batch_ema_refines_seeded_incremental 3 [1, 2, 3, 4] (by norm_num) (by simp)

/-! ### Aggregator helper lemmas -/

theorem timeWeight_age_zero (hl : ℝ) : timeWeight hl 0 = 1 := by
  simp [Aggregator.timeWeight]

theorem exp_1386_lt_four : Real.exp (1386/1000) < 4 := by
  have h4 : Real.log 4 = 2 * Real.log 2 := by
    rw [show (4:ℝ) = 2 ^ 2 by norm_num, Real.log_pow]
    norm_num
  have hlog : (1386:ℝ)/1000 < Real.log 4 := by
    have h2 : (0.6931471803 : ℝ) < Real.log 2 := Real.log_two_gt_d9
    rw [h4]
    nlinarith
  calc Real.exp (1386/1000) < Real.exp (Real.log 4) := Real.exp_lt_exp.mpr hlog
    _ = 4 := Real.exp_log (by norm_num)

theorem time_decay_ratio_eval (e k : ℝ) (he : e ≠ 0) (hk : k ≠ 0) :
    itemWeight {} { source := .twitter, sentiment := some (1, k),
                    engagement_score := e, age_minutes := 0 } /
    itemWeight {} { source := .twitter, sentiment := some (1, k),
                    engagement_score := e, age_minutes := 60 } =
    Real.exp (1386/1000) := by
  unfold Aggregator.itemWeight Aggregator.itemConf Aggregator.timeWeight
  dsimp only
  rw [show (-(693/1000) * 0 / 30 : ℝ) = 0 by norm_num,
      show (-(693/1000) * 60 / 30 : ℝ) = -(1386/1000) by norm_num,
      Real.exp_zero, Real.exp_neg]
  rw [one_mul, div_eq_iff (by positivity)]
  field_simp

theorem recent_eval :
    recentData [twitterItem, newsItem] 60 = [twitterItem, newsItem] := by
  simp only [Aggregator.recentData, List.filter_cons, List.filter_nil,
    Aggregator.twitterItem, Aggregator.newsItem, decide_eq_true_eq]
  norm_num

theorem bucket_twitter_eval :
    bucket {} [twitterItem, newsItem] .twitter = [(1, 1)] := by
  simp [Aggregator.bucket, List.filter_cons, Aggregator.twitterItem,
    Aggregator.newsItem, Aggregator.itemScore, Aggregator.itemWeight,
    Aggregator.itemConf, Aggregator.timeWeight]

theorem bucket_reddit_eval :
    bucket {} [twitterItem, newsItem] .reddit = [] := by
  simp [Aggregator.bucket, List.filter_cons, Aggregator.twitterItem,
    Aggregator.newsItem]

theorem bucket_news_eval :
    bucket {} [twitterItem, newsItem] .news = [(0, 1)] := by
  simp [Aggregator.bucket, List.filter_cons, Aggregator.twitterItem,
    Aggregator.newsItem, Aggregator.itemScore, Aggregator.itemWeight,
    Aggregator.itemConf, Aggregator.timeWeight]

theorem present_eval :
    presentSources {} [twitterItem, newsItem] = [.twitter, .news] := by
  simp only [Aggregator.presentSources, Aggregator.DataSource.all,
    List.filter_cons, List.filter_nil, decide_eq_true_eq,
    bucket_twitter_eval, bucket_reddit_eval, bucket_news_eval]
  norm_num [Aggregator.totalWeight]

theorem sourceWeight_default (s : DataSource) :
    sourceWeight {} s = rawWeight {} s := by
  unfold Aggregator.sourceWeight
  dsimp only
  rw [if_neg (by norm_num)]

theorem bucketConfidence_single (x : ℝ) :
    bucketConfidence [(x, 1)] = 1/10 := by
  unfold Aggregator.bucketConfidence Aggregator.bucketVariance
    Aggregator.weightedAvg Aggregator.totalWeight
  norm_num

theorem composite_eval :
    compositeScore {} [twitterItem, newsItem] = 3/7 := by
  unfold Aggregator.compositeScore Aggregator.compositeNum Aggregator.compositeDen
  rw [present_eval]
  simp only [List.map_cons, List.map_nil, List.sum_cons, List.sum_nil,
    bucket_twitter_eval, bucket_news_eval, bucketConfidence_single,
    sourceWeight_default]
  rw [if_pos (by norm_num [Aggregator.rawWeight])]
  norm_num [Aggregator.rawWeight, Aggregator.weightedAvg, Aggregator.totalWeight]

theorem agreement_eval :
    agreementFactor {} [twitterItem, newsItem] = 49/99 := by
  unfold Aggregator.agreementFactor
  rw [present_eval]
  rw [if_pos (by norm_num)]
  simp only [List.map_cons, List.map_nil, List.sum_cons, List.sum_nil,
    bucket_twitter_eval, bucket_news_eval, composite_eval]
  norm_num [Aggregator.weightedAvg, Aggregator.totalWeight]

theorem volume_eval : volumeFactor [twitterItem, newsItem] = 1/10 := by
  unfold Aggregator.volumeFactor
  norm_num

theorem avgconf_eval : avgSourceConfidence {} [twitterItem, newsItem] = 1/10 := by
  unfold Aggregator.avgSourceConfidence
  rw [present_eval]
  simp only [List.map_cons, List.map_nil, List.sum_cons, List.sum_nil,
    bucket_twitter_eval, bucket_news_eval, bucketConfidence_single]
  norm_num

theorem overall_eval :
    overallConfidence {} [twitterItem, newsItem] = 49/9900 := by
  unfold Aggregator.overallConfidence
  rw [agreement_eval, volume_eval, avgconf_eval]
  norm_num

theorem aggregate_confidence_unfold (cfg : AggConfig) (data : List CollectedData)
    (symbol : String) (w : ℝ) (hdata : data ≠ [])
    (hrecent : recentData data w ≠ []) :
    (aggregate cfg data symbol w).confidence =
      overallConfidence cfg (recentData data w) ∧
    (aggregate cfg data symbol w).source_breakdown =
      (presentSources cfg (recentData data w)).map
        (fun s => (s, weightedAvg (bucket cfg (recentData data w) s))) := by
  unfold Aggregator.aggregate
  rw [if_neg (by simpa using hdata)]
  dsimp only
  rw [if_neg (by simpa using hrecent)]
  exact ⟨rfl, rfl⟩

/-! ### Claim C5 -/

/-- C5 counterexample. One twitter item scored +1 and one news item
scored 0, both fresh, equal engagement: the per-source averages are 1 and 0,
their variance about their own mean is 1/4, so the claim predicts agreement
1/2 and confidence 1/2 · (1/10) · (1/10) = 1/200; the source computes the
deviation about the composite score 3/7 (weighted 0.3/0.4 by source), giving
agreement 49/99 and confidence 49/9900 ≠ 1/200. -/
theorem agreement_not_about_own_mean :
    (aggregate {} [twitterItem, newsItem] "MNQ" 60).confidence = 49/9900 ∧
    (aggregate {} [twitterItem, newsItem] "MNQ" 60).source_breakdown =
      [(.twitter, 1), (.news, 0)] ∧
    volumeFactor (recentData [twitterItem, newsItem] 60) = 1/10 ∧
    avgSourceConfidence {} (recentData [twitterItem, newsItem] 60) = 1/10 ∧
    1 / (1 + varianceAboutMean [1, 0] * 4) * ((1:ℝ)/10) * (1/10) = 1/200 ∧
    ((49:ℝ)/9900) ≠ 1/200 := by
  have hu := aggregate_confidence_unfold {} [twitterItem, newsItem] "MNQ" 60
    (by simp) (by rw [recent_eval]; simp)
  refine ⟨?_, ?_, ?_, ?_, ?_, by norm_num⟩
  · rw [hu.1, recent_eval, overall_eval]
  · rw [hu.2, recent_eval, present_eval]
    simp only [List.map_cons, List.map_nil, bucket_twitter_eval, bucket_news_eval]
    norm_num [Aggregator.weightedAvg, Aggregator.totalWeight]
  · rw [recent_eval, volume_eval]
  · rw [recent_eval, avgconf_eval]
  · norm_num [Aggregator.varianceAboutMean]

/-- C5, amended. With two or more source buckets present, the agreement
factor is `1/(1 + 4·msd)` where `msd` is the mean squared deviation of the
per-source weighted averages about the *composite score* (not about their own
mean as the claim states); with exactly one source it is 0.7.  The aggregate
confidence equals that factor times the volume factor and the average source
confidence. -/
theorem agreement_factor_formula (cfg : AggConfig) (data : List CollectedData)
    (symbol : String) (w : ℝ) (hdata : data ≠ [])
    (hrecent : recentData data w ≠ []) :
    (2 ≤ (presentSources cfg (recentData data w)).length →
      (aggregate cfg data symbol w).confidence =
        1 / (1 + (((presentSources cfg (recentData data w)).map fun s =>
            (weightedAvg (bucket cfg (recentData data w) s) -
              compositeScore cfg (recentData data w)) ^ 2).sum /
          ((presentSources cfg (recentData data w)).length : ℝ)) * 4) *
        volumeFactor (recentData data w) *
        avgSourceConfidence cfg (recentData data w)) ∧
    ((presentSources cfg (recentData data w)).length = 1 →
      (aggregate cfg data symbol w).confidence =
        7/10 * volumeFactor (recentData data w) *
        avgSourceConfidence cfg (recentData data w)) := by
  have hu := (aggregate_confidence_unfold cfg data symbol w hdata hrecent).1
  constructor
  · intro hlen
    rw [hu]
    unfold Aggregator.overallConfidence Aggregator.agreementFactor
    dsimp only
    rw [if_pos (by omega)]
  · intro hlen
    rw [hu]
    unfold Aggregator.overallConfidence Aggregator.agreementFactor
    dsimp only
    rw [if_neg (by omega)]

/-- Witness for C5 at the concrete two-item input (twitter +1, news 0). -/
theorem agreement_factor_formula_witness :
    (aggregate {} [twitterItem, newsItem] "MNQ" 60).confidence =
      1 / (1 + (((presentSources {} (recentData [twitterItem, newsItem] 60)).map
          fun s => (weightedAvg (bucket {} (recentData [twitterItem, newsItem] 60) s) -
            compositeScore {} (recentData [twitterItem, newsItem] 60)) ^ 2).sum /
        ((presentSources {} (recentData [twitterItem, newsItem] 60)).length : ℝ)) * 4) *
      volumeFactor (recentData [twitterItem, newsItem] 60) *
      avgSourceConfidence {} (recentData [twitterItem, newsItem] 60) :=
  (agreement_factor_formula {} [twitterItem, newsItem] "MNQ" 60 (by simp)
    (by rw [recent_eval]; simp)).1
    (by rw [recent_eval, present_eval]; norm_num)

/-! ### Claim C8 -/

/-- C8 counterexample. Two observations with identical engagement 1 and
confidence 1, ages 0 and 60 minutes, half-life 30: the weight ratio is
`exp(0.693·2) = exp(1.386) ≈ 3.99898`, which is not 4, because the source
decay constant is the literal `0.693` rather than `ln 2`. -/
theorem time_decay_ratio_not_four :
    itemWeight {} { source := .twitter, sentiment := some (1, 1),
                    engagement_score := 1, age_minutes := 0 } /
    itemWeight {} { source := .twitter, sentiment := some (1, 1),
                    engagement_score := 1, age_minutes := 60 } ≠ 4 := by
  rw [time_decay_ratio_eval 1 1 one_ne_zero one_ne_zero]
  exact ne_of_lt exp_1386_lt_four

/-- C8, amended. For two observations with identical (nonzero)
engagement and confidence, ages 0 and 60 minutes and half-life 30, the
newer-to-older weight ratio equals `exp(1.386)`, which is strictly below 4
(it would be exactly 4 with decay constant `ln 2`). -/
theorem time_decay_ratio (e k : ℝ) (he : e ≠ 0) (hk : k ≠ 0) :
    itemWeight {} { source := .twitter, sentiment := some (1, k),
                    engagement_score := e, age_minutes := 0 } /
    itemWeight {} { source := .twitter, sentiment := some (1, k),
                    engagement_score := e, age_minutes := 60 } =
      Real.exp (1386/1000) ∧
    Real.exp (1386/1000) < 4 :=
  ⟨time_decay_ratio_eval e k he hk, exp_1386_lt_four⟩

/-- Witness for C8 at engagement 1, confidence 1. -/
theorem time_decay_ratio_witness :
    itemWeight {} { source := .twitter, sentiment := some (1, 1),
                    engagement_score := 1, age_minutes := 0 } /
    itemWeight {} { source := .twitter, sentiment := some (1, 1),
                    engagement_score := 1, age_minutes := 60 } =
      Real.exp (1386/1000) ∧
    Real.exp (1386/1000) < 4 :=
  time_decay_ratio 1 1 one_ne_zero one_ne_zero

end Tradovate
